import Mathlib

/-!
Shallow embedding of the core of `src/backend.py` (class `PDFScanner`) of the
`pdf_scanner` repository, together with theorems settling the frozen claims
about its specification.

Modelling conventions:
* Python `dict` values are modelled as association lists (`List (String × _)`)
  with Python's insertion semantics (`dictInsert`: update in place, else
  append).  Iteration over a dict is iteration over that list.
* Python exceptions are modelled explicitly: fallible steps return
  `Except PyErr _` and the `try/except` blocks of `scan_pdf` become matches on
  that value.  A progress callback is a function that may itself raise.
* `float` file sizes are modelled as `ℚ`; the size arithmetic of the program
  (division by `1024 * 1024`, comparisons against the MB thresholds) is exact
  at every input the claims touch, so no floating-point rounding is modelled.
* The filesystem / subprocess environment seen by one `scan_pdf` call is a
  `FileEnv` record: existence, suffix, `stat` outcome, availability of the
  external tool, and the subprocess outcome as a function of the timeout.
-/

namespace PdfScanner

/-- `ThreatLevel` enumeration from `backend.py`. -/
inductive ThreatLevel where
  | SAFE
  | LOW
  | MEDIUM
  | HIGH
  | CRITICAL
deriving DecidableEq, Repr

/-- `PDFScanner._threat_level_priority`: the numeric priority map. -/
def threatLevelPriority : ThreatLevel → Nat
  | .SAFE => 0
  | .LOW => 1
  | .MEDIUM => 2
  | .HIGH => 3
  | .CRITICAL => 4

/-- One value of the `THREAT_DEFINITIONS` table: severity plus description. -/
structure ThreatDef where
  level : ThreatLevel
  desc : String
deriving DecidableEq, Repr

/-- `PDFScanner.THREAT_DEFINITIONS`, in the source's insertion order. -/
def threatDefinitions : List (String × ThreatDef) :=
  [ ("/JS", ⟨.CRITICAL, "JavaScript code execution"⟩),
    ("/JavaScript", ⟨.CRITICAL, "JavaScript embedded"⟩),
    ("/AA", ⟨.HIGH, "Auto-action triggers"⟩),
    ("/OpenAction", ⟨.HIGH, "Automatic execution on open"⟩),
    ("/Launch", ⟨.HIGH, "External program execution"⟩),
    ("/EmbeddedFile", ⟨.MEDIUM, "Embedded files present"⟩),
    ("/RichMedia", ⟨.MEDIUM, "Rich media content"⟩),
    ("/XFA", ⟨.MEDIUM, "XML Forms Architecture"⟩),
    ("/Encrypt", ⟨.LOW, "Encrypted content"⟩),
    ("/Names", ⟨.LOW, "Named destinations"⟩),
    ("/AcroForm", ⟨.LOW, "Interactive forms"⟩) ]

/-- `PDFScanner.MAX_FILE_SIZE_MB` (1 GB). -/
def MAX_FILE_SIZE_MB : Nat := 1024

/-- `PDFScanner.WARNING_FILE_SIZE_MB`. -/
def WARNING_FILE_SIZE_MB : Nat := 100

/-- `PDFScanner.LARGE_FILE_SIZE_MB`. -/
def LARGE_FILE_SIZE_MB : Nat := 500

/-! ### Python dict operations on association lists -/

/-- Python dict assignment `d[k] = v`: update the value in place when the key
is present (keeping its position), otherwise append the new pair. -/
def dictInsert {α : Type} : List (String × α) → String → α → List (String × α)
  | [], k, v => [(k, v)]
  | (k', v') :: rest, k, v =>
      if k' = k then (k', v) :: rest else (k', v') :: dictInsert rest k v

/-- Python dict lookup `d.get(k)` / `k in d`: first (only) entry with the key. -/
def dictGet {α : Type} : List (String × α) → String → Option α
  | [], _ => none
  | (k', v) :: rest, k => if k' = k then some v else dictGet rest k

/-- Python `d.get(k, default)`. -/
def dictGetD {α : Type} (d : List (String × α)) (k : String) (v₀ : α) : α :=
  (dictGet d k).getD v₀

/-- Build a dict by successive Python assignments of a list of pairs. -/
def dictOfPairs {α : Type} (ps : List (String × α)) : List (String × α) :=
  ps.foldl (fun d p => dictInsert d p.1 p.2) []

/-! ### Python string primitives used by the parser

These model the exact CPython behaviours the parser relies on, restricted to
ASCII whitespace and ASCII decimal digits (the only characters the external
tool's output format and the claims exercise). -/

/-- ASCII whitespace, as recognised by `str.strip()` / `str.split(None)`. -/
def isPyWS (c : Char) : Bool :=
  c = ' ' || c = '\t' || c = '\n' || c = '\r' || c = '\x0b' || c = '\x0c'

/-- Python `str.strip()` (ASCII whitespace). -/
def pyStrip (s : String) : String :=
  String.mk (((s.data.dropWhile isPyWS).reverse.dropWhile isPyWS).reverse)

/-- ASCII lowering of one character, as `str.lower()` does on ASCII. -/
def lowerChar (c : Char) : Char :=
  if 'A' ≤ c ∧ c ≤ 'Z' then Char.ofNat (c.toNat + 32) else c

/-- Python `str.lower()` (ASCII). -/
def pyLower (s : String) : String :=
  String.mk (s.data.map lowerChar)

/-- Worker for `pySplitlines`: accumulates the current line (reversed). -/
def splitlinesGo : List Char → List Char → List String
  | '\r' :: '\n' :: rest, acc => String.mk acc.reverse :: splitlinesGo rest []
  | '\r' :: rest, acc => String.mk acc.reverse :: splitlinesGo rest []
  | '\n' :: rest, acc => String.mk acc.reverse :: splitlinesGo rest []
  | c :: rest, acc => splitlinesGo rest (c :: acc)
  | [], [] => []
  | [], acc => [String.mk acc.reverse]

/-- Python `str.splitlines()` restricted to the `\n`, `\r\n` and `\r`
terminators (the only ones the external tool emits); a trailing terminator
produces no empty final line. -/
def pySplitlines (s : String) : List String :=
  splitlinesGo s.data []

/-- Python `line.split(None, 1)`: skip leading whitespace, take the first
whitespace-free token, skip the separating whitespace run; when nothing
follows, one token, otherwise the token and the untouched remainder. -/
def pySplitNone1 (s : String) : List String :=
  let cs := s.data.dropWhile isPyWS
  match cs with
  | [] => []
  | _ :: _ =>
      let tok := cs.takeWhile (fun c => !isPyWS c)
      let rest := (cs.dropWhile (fun c => !isPyWS c)).dropWhile isPyWS
      match rest with
      | [] => [String.mk tok]
      | _ :: _ => [String.mk tok, String.mk rest]

/-- Digit-run tail of Python `int(...)`: after the first digit, digits with
single underscores allowed between digits (PEP 515). -/
def pyDigitsCore : Nat → List Char → Option Nat
  | acc, [] => some acc
  | acc, c :: rest =>
      if c.isDigit then pyDigitsCore (acc * 10 + (c.toNat - 48)) rest
      else if c = '_' then
        match rest with
        | d :: rest' =>
            if d.isDigit then pyDigitsCore (acc * 10 + (d.toNat - 48)) rest'
            else none
        | [] => none
      else none

/-- Magnitude part of Python `int(...)`: one leading digit then
`pyDigitsCore`. -/
def pyIntMag : List Char → Option Nat
  | [] => none
  | c :: rest => if c.isDigit then pyDigitsCore (c.toNat - 48) rest else none

/-- Python `int(str)` in base 10 (ASCII digits): surrounding whitespace is
stripped, an optional sign precedes the digits; anything else raises
`ValueError`, modelled as `none`. -/
def pyInt (s : String) : Option Int :=
  match (pyStrip s).data with
  | '+' :: rest => (pyIntMag rest).map Int.ofNat
  | '-' :: rest => (pyIntMag rest).map (fun n => -(n : Int))
  | cs => (pyIntMag cs).map Int.ofNat

/-! ### `PDFScanner._parse_pdfid_output` -/

/-- The `data_lines` selection of `_parse_pdfid_output` (line 381):
`lines[2:] if len(lines) > 2 else lines`. -/
def dataLinesOf (output : String) : List String :=
  let lines := pySplitlines output
  if lines.length > 2 then lines.drop 2 else lines

/-- The body of the `for line in data_lines` loop of `_parse_pdfid_output`:
strip, skip blank lines, split once on whitespace, and record the pair when
exactly two tokens arise and the second parses as an integer. -/
def parseLineStep (keywordCounts : List (String × Int)) (line : String) :
    List (String × Int) :=
  if pyStrip line = "" then keywordCounts
  else
    match pySplitNone1 (pyStrip line) with
    | [key, valueStr] =>
        match pyInt valueStr with
        | some value => dictInsert keywordCounts key value
        | none => keywordCounts
    | _ => keywordCounts

/-- `PDFScanner._parse_pdfid_output`: fold the loop body over the data
lines, starting from the empty dict. -/
def parsePdfidOutput (output : String) : List (String × Int) :=
  (dataLinesOf output).foldl parseLineStep []

/-- Specification-side view of the per-line logic of `_parse_pdfid_output`:
the entry a single line contributes, if any. -/
def lineEntry (line : String) : Option (String × Int) :=
  if pyStrip line = "" then none
  else
    match pySplitNone1 (pyStrip line) with
    | [key, valueStr] =>
        match pyInt valueStr with
        | some value => some (key, value)
        | none => none
    | _ => none

/-! ### `PDFScanner._assess_threats` and recommendation synthesis -/

/-- Models `f"{q:.1f}"` for the non-negative rationals the program formats
(one truncated decimal digit; the tie behaviour of float formatting is
immaterial to every claim). -/
def formatF1 (q : ℚ) : String :=
  toString ⌊q⌋ ++ "." ++ toString (⌊q * 10⌋ - ⌊q⌋ * 10)

/-- Models `f"{n:.1f}"` for the integer counts read back out of the keyword
dict in `_generate_recommendations`. -/
def formatF1Int (n : Int) : String :=
  toString n ++ ".0"

/-- `PDFScanner._generate_recommendations`: the baseline table keyed by
threat level (the MEDIUM list interpolates `threat_count`), then file-size
messages appended from `keywords.get("file_size_mb", 0)`. -/
def generateRecommendations (threatLevel : ThreatLevel) (threatCount : Nat)
    (keywords : List (String × Int)) : List String :=
  let base : List String :=
    match threatLevel with
    | .CRITICAL =>
        [ "ðŸš¨ CRITICAL THREAT DETECTED - DO NOT OPEN",
          "This PDF contains dangerous executable code",
          "Use isolated/sandboxed environment only",
          "Consider this file potentially malicious" ]
    | .HIGH =>
        [ "âš ï¸ HIGH RISK - Exercise extreme caution",
          "Disable JavaScript in PDF viewer",
          "Scan with updated antivirus software",
          "Do not enable any prompts or dialogs" ]
    | .MEDIUM =>
        [ "âš ï¸ Medium risk features detected",
          "Review embedded content before opening",
          "Use updated PDF viewer with security features",
          toString threatCount ++ " concerning feature(s) found" ]
    | .LOW =>
        [ "Low risk features present",
          "File appears relatively safe",
          "Standard PDF viewer precautions apply" ]
    | .SAFE =>
        [ "âœ… No obvious threats detected",
          "File appears clean and safe to open" ]
  let fileSizeMb : Int := dictGetD keywords "file_size_mb" 0
  if fileSizeMb > (LARGE_FILE_SIZE_MB : Int) then
    base ++
      [ "ðŸ“Š Very large file (" ++ formatF1Int fileSizeMb ++
          "MB) - ensure sufficient system resources",
        "Large PDFs may take time to open and may consume significant memory" ]
  else if fileSizeMb > (WARNING_FILE_SIZE_MB : Int) then
    base ++
      [ "ðŸ“Š Large file (" ++ formatF1Int fileSizeMb ++
          "MB) - may require extra loading time" ]
  else base

/-- The loop of `PDFScanner._assess_threats`: walk the keyword dict in
iteration order, counting matched indicators and keeping the running maximum
severity (by `_threat_level_priority`). -/
def assessLoop : List (String × Int) → ThreatLevel → Nat → ThreatLevel × Nat
  | [], maxThreatLevel, threatCount => (maxThreatLevel, threatCount)
  | (keyword, count) :: rest, maxThreatLevel, threatCount =>
      if 0 < count then
        match dictGet threatDefinitions keyword with
        | some info =>
            assessLoop rest
              (if threatLevelPriority info.level >
                  threatLevelPriority maxThreatLevel
               then info.level else maxThreatLevel)
              (threatCount + 1)
        | none => assessLoop rest maxThreatLevel threatCount
      else assessLoop rest maxThreatLevel threatCount

/-- Aggregate level and matched-indicator count of
`PDFScanner._assess_threats` (its loop started at SAFE and 0). -/
def assessLevelCount (keywords : List (String × Int)) : ThreatLevel × Nat :=
  assessLoop keywords .SAFE 0

/-- `PDFScanner._assess_threats`: aggregate level plus the synthesized
recommendations. -/
def assessThreats (keywords : List (String × Int)) :
    ThreatLevel × List String :=
  let lc := assessLevelCount keywords
  (lc.1, generateRecommendations lc.1 lc.2 keywords)

/-- `PDFScanner._generate_summary`. -/
def generateSummary (keywords : List (String × Int))
    (threatLevel : ThreatLevel) : String :=
  let threatCount :=
    (keywords.filter
      (fun p => decide (0 < p.2) && (dictGet threatDefinitions p.1).isSome)).length
  let fileSizeMb : Int := dictGetD keywords "file_size_mb" 0
  let sizeIndicator :=
    if fileSizeMb > (LARGE_FILE_SIZE_MB : Int) then " (Very Large File)"
    else if fileSizeMb > (WARNING_FILE_SIZE_MB : Int) then " (Large File)"
    else ""
  match threatLevel with
  | .SAFE => "âœ… Clean - No threats detected" ++ sizeIndicator
  | .LOW =>
      "âšª Low Risk - " ++ toString threatCount ++ " minor issue(s) found" ++
        sizeIndicator
  | .MEDIUM =>
      "ðŸŸ¡ Medium Risk - " ++ toString threatCount ++
        " concerning feature(s)" ++ sizeIndicator
  | .HIGH =>
      "ðŸŸ  High Risk - " ++ toString threatCount ++ " dangerous feature(s)" ++
        sizeIndicator
  | .CRITICAL =>
      "ðŸ”´ CRITICAL - " ++ toString threatCount ++ " severe threat(s) detected" ++
        sizeIndicator

/-! ### Timeout budgeting -/

/-- `PDFScanner._calculate_timeout`. -/
def calculateTimeout (fileSizeMb : ℚ) : Nat :=
  if fileSizeMb ≤ 10 then 30
  else if fileSizeMb ≤ 100 then 60
  else if fileSizeMb ≤ 500 then 180
  else 300

/-- The `if timeout is None` step of `scan_pdf` (line 222): the size-derived
timeout is used exactly when the caller supplied none. -/
def effectiveTimeout (timeout : Option Nat) (fileSizeMb : ℚ) : Nat :=
  match timeout with
  | some t => t
  | none => calculateTimeout fileSizeMb

/-- Python `round(q, 2)` on the file sizes the program rounds (banker's ties
never arise at the inputs the claims exercise, so plain rounding is used). -/
def pyRound2 (q : ℚ) : ℚ :=
  ((round (q * 100) : ℤ) : ℚ) / 100

/-! ### Exceptions, callbacks, environment -/

/-- The Python exceptions that can cross a boundary inside `scan_pdf`:
`subprocess.TimeoutExpired`, `OSError` (with its `str(e)`), and any other
exception (with its `str(e)`). -/
inductive PyErr where
  | timeoutExpired
  | osError (msg : String)
  | exc (msg : String)
deriving DecidableEq, Repr

/-- `str(e)` of a modelled exception. -/
def strOfErr : PyErr → String
  | .timeoutExpired => "TimeoutExpired"
  | .osError m => m
  | .exc m => m

/-- An optional progress callback; invoking it may itself raise. -/
def CB : Type := Option (String → Except PyErr Unit)

/-- `if progress_callback: progress_callback(msg)`. -/
def invokeCB (cb : CB) (msg : String) : Except PyErr Unit :=
  match cb with
  | none => Except.ok ()
  | some f => f msg

/-- Outcome of `subprocess.run` inside `_run_pdfid_scan` for a given
timeout: the deadline expired, the spawn itself raised, or the child
completed with an exit status and captured streams. -/
inductive SpawnOutcome where
  | timeout
  | raised (msg : String)
  | completed (returncode : Int) (stdout : String) (stderr : String)
deriving DecidableEq, Repr

/-- The stdout a spawn outcome carries (empty for the failure shapes, as in
`MockResult`). -/
def spawnStdout : SpawnOutcome → String
  | .completed _ out _ => out
  | _ => ""

/-- Everything one `scan_pdf` call observes about a file path and the
external world: path strings, existence, the `stat` outcome (size in bytes
or an `OSError` message), whether `pdfid.py` was located, the subprocess
outcome as a function of the enforced timeout, and the wall-clock duration
of a successful scan. -/
structure FileEnv where
  pathStr : String
  name : String
  suffix : String
  fsExists : Bool
  statSize : Except String Nat
  pdfidAvailable : Bool
  spawn : Nat → SpawnOutcome
  elapsed : ℚ

/-- `ScanResult` dataclass.  `details` values are rationals because the
program stores the float `round(file_size_mb, 2)` alongside the integer
keyword counts. -/
structure ScanResult where
  file_path : String
  success : Bool
  threat_level : ThreatLevel
  summary : String
  details : List (String × ℚ)
  recommendations : List String
  error_message : Option String := none
  scan_time : ℚ := 0
deriving DecidableEq, Repr

/-- File size in MB: `st_size / (1024 * 1024)`. -/
def mbOf (bytes : Nat) : ℚ :=
  (bytes : ℚ) / (1024 * 1024)

/-- The Linux branch of `_get_suggested_paths` (platform dispatch is
immaterial to every claim; the value only ever appears inside one
recommendation string). -/
def suggestedPaths : String := "/usr/local/bin/, /opt/pdfid/, or ~/pdfid/"

/-! ### The terminal results of `scan_pdf` -/

/-- `scan_pdf` lines 179-188: missing file. -/
def notFoundResult (f : FileEnv) : ScanResult :=
  { file_path := f.pathStr, success := false, threat_level := .SAFE,
    summary := "File not found", details := [], recommendations := [],
    error_message := some ("File does not exist: " ++ f.pathStr) }

/-- `scan_pdf` lines 191-200: extension is not `.pdf`. -/
def invalidTypeResult (f : FileEnv) : ScanResult :=
  { file_path := f.pathStr, success := false, threat_level := .SAFE,
    summary := "Invalid file type", details := [], recommendations := [],
    error_message := some "File is not a PDF document" }

/-- `scan_pdf` lines 206-220: file above the 1 GB limit. -/
def tooLargeResult (f : FileEnv) (fileSizeMb : ℚ) : ScanResult :=
  { file_path := f.pathStr, success := false, threat_level := .SAFE,
    summary := "File too large",
    details := [("file_size_mb", pyRound2 fileSizeMb)],
    recommendations :=
      [ "File size: " ++ formatF1 fileSizeMb ++ "MB exceeds limit of " ++
          toString MAX_FILE_SIZE_MB ++ "MB (1GB)",
        "Try with a smaller PDF file (under 1GB)",
        "Very large files may contain complex threats requiring specialized tools",
        "Consider splitting the PDF into smaller chunks if possible" ],
    error_message :=
      some ("File size (" ++ formatF1 fileSizeMb ++
        "MB) exceeds maximum allowed size (" ++ toString MAX_FILE_SIZE_MB ++
        "MB)") }

/-- `scan_pdf` lines 233-242: `except OSError` around the size step. -/
def accessErrorResult (f : FileEnv) (msg : String) : ScanResult :=
  { file_path := f.pathStr, success := false, threat_level := .SAFE,
    summary := "File access error", details := [], recommendations := [],
    error_message := some ("Cannot access file: " ++ msg) }

/-- `scan_pdf` lines 245-258: `pdfid.py` was not located. -/
def toolUnavailableResult (f : FileEnv) : ScanResult :=
  { file_path := f.pathStr, success := false, threat_level := .SAFE,
    summary := "Scanner not available", details := [],
    recommendations :=
      [ "Install pdfid tool",
        "Download from: https://blog.didierstevens.com/programs/pdf-tools/",
        "Place pdfid.py in one of these locations: " ++ suggestedPaths ],
    error_message := some "pdfid.py not found in expected locations" }

/-- `scan_pdf` lines 267-282: the tool exited non-zero. -/
def scanFailedResult (f : FileEnv) (stderrMsg : String) : ScanResult :=
  { file_path := f.pathStr, success := false, threat_level := .SAFE,
    summary := "Scan failed", details := [],
    recommendations :=
      [ "PDF file may be corrupted, encrypted, or too complex",
        "Try with a different PDF file",
        "Check if file is password protected",
        "Large files may require additional processing time" ],
    error_message := some ("pdfid scan error: " ++ stderrMsg) }

/-- `scan_pdf` lines 309-324: `except subprocess.TimeoutExpired`. -/
def timeoutResult (f : FileEnv) (fileSizeMb : ℚ) (timeout : Nat) :
    ScanResult :=
  { file_path := f.pathStr, success := false, threat_level := .SAFE,
    summary := "Scan timeout",
    details := [("file_size_mb", pyRound2 fileSizeMb)],
    recommendations :=
      [ "Scan timed out after " ++ toString timeout ++ " seconds",
        "File size: " ++ formatF1 fileSizeMb ++
          "MB may be too complex for current timeout",
        "Very large PDFs (>500MB) may require extended processing time",
        "Try scanning smaller sections of the PDF if possible",
        "Consider using specialized tools for files approaching 1GB" ],
    error_message :=
      some ("Scan timed out after " ++ toString timeout ++
        " seconds - file may be too large or complex") }

/-- `scan_pdf` lines 325-339: `except Exception` catch-all (`file_size_mb`
is always bound by the time the big `try` is entered). -/
def unexpectedResult (f : FileEnv) (fileSizeMb : ℚ) (msg : String) :
    ScanResult :=
  { file_path := f.pathStr, success := false, threat_level := .SAFE,
    summary := "Unexpected error",
    details := [("file_size_mb", pyRound2 fileSizeMb)],
    recommendations :=
      [ "An unexpected error occurred during scanning",
        "Try with a different PDF file",
        "Ensure the file is not corrupted",
        "Large files may require more system resources" ],
    error_message := some ("Scan error: " ++ msg) }

/-- `scan_pdf` lines 284-307: the successful terminal result built from the
tool's stdout — parse, classify, synthesize, then merge `file_size_mb` and
the `large_file` flag into the details. -/
def successResult (f : FileEnv) (fileSizeMb : ℚ) (stdout : String) :
    ScanResult :=
  let keywordCounts := parsePdfidOutput stdout
  let lc := assessLevelCount keywordCounts
  let recommendations := generateRecommendations lc.1 lc.2 keywordCounts
  let summary := generateSummary keywordCounts lc.1
  let details0 : List (String × ℚ) :=
    keywordCounts.map (fun p => (p.1, (p.2 : ℚ)))
  let details1 := dictInsert details0 "file_size_mb" (pyRound2 fileSizeMb)
  let details :=
    if fileSizeMb > (WARNING_FILE_SIZE_MB : ℚ) then
      dictInsert details1 "large_file" 1
    else details1
  { file_path := f.pathStr, success := true, threat_level := lc.1,
    summary := summary, details := details,
    recommendations := recommendations, scan_time := f.elapsed }

/-! ### The scan pipeline -/

/-- `PDFScanner._run_pdfid_scan`: the spawn outcome for the enforced
timeout; `TimeoutExpired` is re-raised, any other spawn exception becomes a
`MockResult` with exit status 1, empty stdout and `str(e)` as stderr. -/
def runPdfidScan (f : FileEnv) (timeout : Nat) :
    Except PyErr (Int × String × String) :=
  match f.spawn timeout with
  | .timeout => Except.error .timeoutExpired
  | .raised m => Except.ok (1, "", m)
  | .completed rc out err => Except.ok (rc, out, err)

/-- `scan_pdf` lines 203-242, the `try/except OSError` block: size check,
timeout derivation and large-file progress messages.  Yields either an early
terminal result or the size and effective timeout; a non-`OSError` raise
inside the block (only a callback can produce one) propagates. -/
def sizeStep (f : FileEnv) (timeout : Option Nat) (cb : CB) :
    Except PyErr (ScanResult ⊕ (ℚ × Nat)) :=
  match f.statSize with
  | .error m => Except.ok (Sum.inl (accessErrorResult f m))
  | .ok bytes =>
      if mbOf bytes > (MAX_FILE_SIZE_MB : ℚ) then
        Except.ok (Sum.inl (tooLargeResult f (mbOf bytes)))
      else
        match
          (if mbOf bytes > (LARGE_FILE_SIZE_MB : ℚ) then
            invokeCB cb ("Very large file detected (" ++ formatF1 (mbOf bytes) ++
              "MB) - this will take several minutes...")
          else if mbOf bytes > (WARNING_FILE_SIZE_MB : ℚ) then
            invokeCB cb ("Large file detected (" ++ formatF1 (mbOf bytes) ++
              "MB) - this may take longer...")
          else Except.ok ()) with
        | Except.ok _ =>
            Except.ok (Sum.inr (mbOf bytes, effectiveTimeout timeout (mbOf bytes)))
        | Except.error (.osError m) =>
            Except.ok (Sum.inl (accessErrorResult f m))
        | Except.error e => Except.error e

/-- `scan_pdf` lines 264-307, the body of the big `try`: run the tool, check
the exit status, then parse/classify/synthesize. -/
def mainBody (f : FileEnv) (fileSizeMb : ℚ) (timeout : Nat) (cb : CB) :
    Except PyErr ScanResult :=
  match runPdfidScan f timeout with
  | Except.error e => Except.error e
  | Except.ok (rc, stdout, stderr) =>
      if rc ≠ 0 then
        Except.ok (scanFailedResult f
          (if stderr = "" then "Unknown error" else pyStrip stderr))
      else
        match invokeCB cb "Analyzing threats and generating report..." with
        | Except.error e => Except.error e
        | Except.ok _ => Except.ok (successResult f fileSizeMb stdout)

/-- `PDFScanner.scan_pdf`.  The value is `Except.error e` exactly when the
Python function would let exception `e` escape to its caller (which, as the
claims probe, can happen only through a raising progress callback). -/
def scanPdf (f : FileEnv) (timeout : Option Nat) (cb : CB) :
    Except PyErr ScanResult :=
  match invokeCB cb "Validating file..." with
  | Except.error e => Except.error e
  | Except.ok _ =>
    if !f.fsExists then Except.ok (notFoundResult f)
    else if pyLower f.suffix ≠ ".pdf" then Except.ok (invalidTypeResult f)
    else
      match sizeStep f timeout cb with
      | Except.error e => Except.error e
      | Except.ok (Sum.inl r) => Except.ok r
      | Except.ok (Sum.inr (fileSizeMb, tmo)) =>
          if !f.pdfidAvailable then Except.ok (toolUnavailableResult f)
          else
            match invokeCB cb "Analyzing PDF structure..." with
            | Except.error e => Except.error e
            | Except.ok _ =>
                match mainBody f fileSizeMb tmo cb with
                | Except.ok r => Except.ok r
                | Except.error .timeoutExpired =>
                    Except.ok (timeoutResult f fileSizeMb tmo)
                | Except.error (.osError m) =>
                    Except.ok (unexpectedResult f fileSizeMb m)
                | Except.error (.exc m) =>
                    Except.ok (unexpectedResult f fileSizeMb m)

/-! ### `PDFScanner.scan_multiple_pdfs` -/

/-- The `scan_with_progress` closure of `scan_multiple_pdfs`: the banner
progress message, then `scan_pdf` with the index-prefixing inner callback
(the inner lambda is always passed; its body calls the outer callback only
when one was given — exactly what `invokeCB` does). -/
def scanWithProgress (total : Nat) (i : Nat) (f : FileEnv) (cb : CB) :
    Except PyErr ScanResult :=
  match invokeCB cb
      ("Scanning " ++ toString (i + 1) ++ "/" ++ toString total ++ ": " ++
        f.name) with
  | Except.error e => Except.error e
  | Except.ok _ =>
      scanPdf f none
        (some (fun msg =>
          invokeCB cb
            ("[" ++ toString (i + 1) ++ "/" ++ toString total ++ "] " ++ msg)))

/-- What one future of `scan_multiple_pdfs` contributes to `results`: the
scan's own result, or — when `future.result()` re-raises — the error result
built in the `except` block, naming the file. -/
def futureOutcome (total : Nat) (i : Nat) (f : FileEnv) (cb : CB) :
    ScanResult :=
  match scanWithProgress total i f cb with
  | Except.ok r => r
  | Except.error e =>
      { file_path := f.pathStr, success := false, threat_level := .SAFE,
        summary := "Scan failed", details := [], recommendations := [],
        error_message :=
          some ("Failed to scan " ++ f.name ++ ": " ++ strOfErr e) }

/-- `PDFScanner.scan_multiple_pdfs`: each input file is submitted once; the
`as_completed` iteration appends one outcome per future in a scheduler-chosen
order, modelled by the `order` list (a permutation of all indices, by the
hypothesis of the theorems below). -/
def scanMultiplePdfs (files : List FileEnv) (cb : CB)
    (order : List (Fin files.length)) : List ScanResult :=
  order.map (fun i => futureOutcome files.length i.val (files.get i) cb)

/-- The entries of the keyword mapping that `_assess_threats` treats as
findings: positive count and an entry in the Threat Rule Table. -/
def matchedOf (kws : List (String × Int)) : List (String × Int) :=
  kws.filter (fun p => decide (0 < p.2) && (dictGet threatDefinitions p.1).isSome)

def entryPriority (p : String × Int) : Nat :=
  match dictGet threatDefinitions p.1 with
  | some info => threatLevelPriority info.level
  | none => 0

def maxMatchPriority (kws : List (String × Int)) : Nat :=
  (matchedOf kws).foldr (fun p m => Nat.max (entryPriority p) m) 0

/-! ### Substring testing, projections and concrete environments -/

/-- Does the first character list start the second? -/
def listStarts : List Char → List Char → Bool
  | [], _ => true
  | _ :: _, [] => false
  | a :: as, b :: bs => a == b && listStarts as bs

/-- Does `pat` occur as a contiguous sublist of `text`? -/
def listHasSub (pat : List Char) : List Char → Bool
  | [] => listStarts pat []
  | c :: rest => listStarts pat (c :: rest) || listHasSub pat rest

/-- Does `pat` occur as a substring of `s`? -/
def strHasSub (pat s : String) : Bool :=
  listHasSub pat.data s.data

/-- The `details` of an `Except`-wrapped scan result (empty on error). -/
def resultDetails (x : Except PyErr ScanResult) : List (String × ℚ) :=
  match x with
  | Except.ok r => r.details
  | Except.error _ => []

/-- A progress callback that raises a generic exception on every call. -/
def raisingCallback : CB := some (fun _ => Except.error (PyErr.exc "boom"))

/-- A small clean PDF whose tool output reports `/JS 1`. -/
def envSmallJs : FileEnv :=
  { pathStr := "/docs/a.pdf", name := "a.pdf", suffix := ".pdf",
    fsExists := true, statSize := Except.ok 1048576, pdfidAvailable := true,
    spawn := fun _ =>
      SpawnOutcome.completed 0 "PDFiD 0.2.7 /docs/a.pdf\n PDF Header: %PDF-1.7\n /JS 1" "",
    elapsed := 0 }

/-- A path that does not exist. -/
def envMissing : FileEnv :=
  { pathStr := "/docs/absent.pdf", name := "absent.pdf", suffix := ".pdf",
    fsExists := false, statSize := Except.error "unreachable",
    pdfidAvailable := true, spawn := fun _ => SpawnOutcome.timeout,
    elapsed := 0 }

/-- A 1 MB PDF whose tool output carries the negative count `/JS -3`. -/
def envNegativeCount : FileEnv :=
  { pathStr := "/docs/neg.pdf", name := "neg.pdf", suffix := ".pdf",
    fsExists := true, statSize := Except.ok 1048576, pdfidAvailable := true,
    spawn := fun _ =>
      SpawnOutcome.completed 0 "PDFiD 0.2.7 /docs/neg.pdf\n PDF Header: %PDF-1.7\n /JS -3" "",
    elapsed := 0 }

/-- A 1 MB PDF whose tool output carries only the non-negative count `/JS 2`. -/
def envCleanCounts : FileEnv :=
  { pathStr := "/docs/clean.pdf", name := "clean.pdf", suffix := ".pdf",
    fsExists := true, statSize := Except.ok 1048576, pdfidAvailable := true,
    spawn := fun _ =>
      SpawnOutcome.completed 0 "PDFiD 0.2.7 /docs/clean.pdf\n PDF Header: %PDF-1.7\n /JS 2" "",
    elapsed := 0 }

/-- A 600 MB (629145600-byte) PDF that scans successfully with the single
data line `/JS 0`. -/
def envVeryLarge : FileEnv :=
  { pathStr := "/docs/big.pdf", name := "big.pdf", suffix := ".pdf",
    fsExists := true, statSize := Except.ok 629145600, pdfidAvailable := true,
    spawn := fun _ =>
      SpawnOutcome.completed 0 "PDFiD 0.2.7 /docs/big.pdf\n PDF Header: %PDF-1.7\n /JS 0" "",
    elapsed := 0 }

/-- A two-file batch. -/
def batchFiles : List FileEnv := [envSmallJs, envMissing]

/-- A completion order for the two-file batch: second file first. -/
def batchOrder : List (Fin batchFiles.length) := [⟨1, by decide⟩, ⟨0, by decide⟩]

/-! ### Inversion of the scan pipeline -/

/-- Every `Except.ok` value of `sizeStep` is the access-error result, the
too-large result, or admission with the exact size and effective timeout. -/
lemma sizeStep_cases (f : FileEnv) (t : Option Nat) (cb : CB)
    (v : ScanResult ⊕ (ℚ × Nat)) (h : sizeStep f t cb = Except.ok v) :
    (∃ m, v = Sum.inl (accessErrorResult f m))
    ∨ (∃ bytes, f.statSize = Except.ok bytes ∧
        v = Sum.inl (tooLargeResult f (mbOf bytes)))
    ∨ (∃ bytes, f.statSize = Except.ok bytes ∧
        v = Sum.inr (mbOf bytes, effectiveTimeout t (mbOf bytes))) := by
  unfold sizeStep at h
  split at h
  · rename_i m heq
    injection h with h
    exact Or.inl ⟨m, h.symm⟩
  · rename_i bytes heq
    split at h
    · injection h with h
      exact Or.inr (Or.inl ⟨bytes, heq, h.symm⟩)
    · split at h
      · injection h with h
        exact Or.inr (Or.inr ⟨bytes, heq, h.symm⟩)
      · injection h with h
        exact Or.inl ⟨_, h.symm⟩
      · exact Except.noConfusion h

/-- Every `Except.ok` value of `mainBody` is the non-zero-exit result or the
success result built from the stdout of an exit-0 completion. -/
lemma mainBody_cases (f : FileEnv) (mb : ℚ) (tmo : Nat) (cb : CB)
    (r : ScanResult) (h : mainBody f mb tmo cb = Except.ok r) :
    (∃ m, r = scanFailedResult f m)
    ∨ (∃ out err, f.spawn tmo = SpawnOutcome.completed 0 out err ∧
        r = successResult f mb out) := by
  unfold mainBody runPdfidScan at h
  cases hsp : f.spawn tmo with
  | timeout =>
      rw [hsp] at h
      exact Except.noConfusion h
  | raised m =>
      rw [hsp] at h
      dsimp only at h
      rw [if_pos (by norm_num : (1 : Int) ≠ 0)] at h
      injection h with h
      exact Or.inl ⟨_, h.symm⟩
  | completed rc out err =>
      rw [hsp] at h
      dsimp only at h
      split at h
      · injection h with h
        exact Or.inl ⟨_, h.symm⟩
      · rename_i hrc
        split at h
        · exact Except.noConfusion h
        · injection h with h
          have hrc0 : rc = 0 := by omega
          subst hrc0
          exact Or.inr ⟨out, err, rfl, h.symm⟩

/-! ### Dictionary and parser lemmas -/

/-- Lookup after a Python dict assignment: the new value at the assigned
key, the old dict elsewhere. -/
lemma dictGet_dictInsert {α : Type} (d : List (String × α)) (k k' : String)
    (v : α) :
    dictGet (dictInsert d k v) k' = if k = k' then some v else dictGet d k' := by
  induction d with
  | nil => rfl
  | cons p rest ih =>
      obtain ⟨a, b⟩ := p
      by_cases hak : a = k
      · subst hak
        simp only [dictInsert, if_pos rfl, dictGet]
        by_cases h : a = k' <;> simp [h]
      · simp only [dictInsert, if_neg hak, dictGet, ih]
        by_cases h1 : a = k'
        · subst h1
          have hkk : ¬k = a := fun h => hak h.symm
          simp [hkk]
        · by_cases h2 : k = k' <;> simp [h1, h2]

/-- Every value in a dict after an assignment is the assigned value or was
already a value of the dict. -/
lemma mem_dictInsert {α : Type} {q : String × α} {d : List (String × α)}
    {k : String} {v : α} (h : q ∈ dictInsert d k v) : q.2 = v ∨ q ∈ d := by
  induction d with
  | nil =>
      simp only [dictInsert, List.mem_singleton] at h
      exact Or.inl (by rw [h])
  | cons p rest ih =>
      obtain ⟨a, b⟩ := p
      simp only [dictInsert] at h
      split_ifs at h with hak
      · rcases List.mem_cons.mp h with h | h
        · exact Or.inl (by rw [h])
        · exact Or.inr (List.mem_cons_of_mem _ h)
      · rcases List.mem_cons.mp h with h | h
        · exact Or.inr (h ▸ List.mem_cons_self _ _)
        · rcases ih h with h | h
          · exact Or.inl h
          · exact Or.inr (List.mem_cons_of_mem _ h)

/-- The parser's loop body records exactly the entry `lineEntry` describes. -/
lemma parseLineStep_eq (d : List (String × Int)) (line : String) :
    parseLineStep d line =
      match lineEntry line with
      | some p => dictInsert d p.1 p.2
      | none => d := by
  unfold parseLineStep lineEntry
  split
  · rfl
  · split
    · split <;> rfl
    · rfl

/-- Folding the loop body over lines is folding dict assignment over the
entries of the valid lines: malformed lines contribute nothing. -/
lemma foldl_parseLineStep (ls : List String) (d : List (String × Int)) :
    ls.foldl parseLineStep d =
      (ls.filterMap lineEntry).foldl (fun d p => dictInsert d p.1 p.2) d := by
  induction ls generalizing d with
  | nil => rfl
  | cons line ls ih =>
      rw [List.foldl_cons, parseLineStep_eq, List.filterMap_cons]
      cases h : lineEntry line with
      | none => simp only [h]; rw [ih]
      | some p => simp only [h]; rw [ih, List.foldl_cons]

/-- `_parse_pdfid_output` produces exactly the dict of the valid entries of
the processed data lines. -/
lemma parse_eq_filterMap (out : String) :
    parsePdfidOutput out = dictOfPairs ((dataLinesOf out).filterMap lineEntry) := by
  unfold parsePdfidOutput dictOfPairs
  exact foldl_parseLineStep _ _

/-- Lookup in a dict built by repeated assignment keeps the latest assigned
value per key. -/
lemma dictGet_foldl_insert (ps : List (String × Int))
    (d : List (String × Int)) (k : String) :
    dictGet (ps.foldl (fun d p => dictInsert d p.1 p.2) d) k
      = ps.foldl (fun acc p => if p.1 = k then some p.2 else acc) (dictGet d k) := by
  induction ps generalizing d with
  | nil => rfl
  | cons p ps ih =>
      rw [List.foldl_cons, ih, dictGet_dictInsert, List.foldl_cons]

/-- Inversion for `scan_pdf`: every returned `ScanResult` is one of the nine
terminal results, with the size and spawn side conditions that produced it. -/
lemma scanPdf_cases (f : FileEnv) (t : Option Nat) (cb : CB) (r : ScanResult)
    (h : scanPdf f t cb = Except.ok r) :
    r = notFoundResult f ∨ r = invalidTypeResult f
    ∨ (∃ m, r = accessErrorResult f m)
    ∨ (∃ bytes, f.statSize = Except.ok bytes ∧ r = tooLargeResult f (mbOf bytes))
    ∨ r = toolUnavailableResult f
    ∨ (∃ m, r = scanFailedResult f m)
    ∨ (∃ bytes tmo, f.statSize = Except.ok bytes ∧
        r = timeoutResult f (mbOf bytes) tmo)
    ∨ (∃ bytes m, f.statSize = Except.ok bytes ∧
        r = unexpectedResult f (mbOf bytes) m)
    ∨ (∃ bytes out, f.statSize = Except.ok bytes ∧
        (∃ tmo err, f.spawn tmo = SpawnOutcome.completed 0 out err) ∧
        r = successResult f (mbOf bytes) out) := by
  unfold scanPdf at h
  split at h
  · exact Except.noConfusion h
  · split at h
    · injection h with h
      exact Or.inl h.symm
    · split at h
      · injection h with h
        exact Or.inr (Or.inl h.symm)
      · split at h
        · exact Except.noConfusion h
        · rename_i r' heq
          injection h with h
          rcases sizeStep_cases f t cb _ heq with
            ⟨m, hv⟩ | ⟨bytes, hsb, hv⟩ | ⟨bytes, hsb, hv⟩
          · injection hv with hv
            exact Or.inr (Or.inr (Or.inl ⟨m, h.symm.trans hv⟩))
          · injection hv with hv
            exact Or.inr (Or.inr (Or.inr (Or.inl ⟨bytes, hsb, h.symm.trans hv⟩)))
          · exact Sum.noConfusion hv
        · rename_i fileSizeMb tmo heq
          rcases sizeStep_cases f t cb _ heq with
            ⟨m, hv⟩ | ⟨bytes, hsb, hv⟩ | ⟨bytes, hsb, hv⟩
          · exact Sum.noConfusion hv
          · exact Sum.noConfusion hv
          · injection hv with hv
            injection hv with hv1 hv2
            subst hv1
            subst hv2
            split at h
            · injection h with h
              exact Or.inr (Or.inr (Or.inr (Or.inr (Or.inl h.symm))))
            · split at h
              · exact Except.noConfusion h
              · split at h
                · rename_i r'' heq2
                  injection h with h
                  subst h
                  rcases mainBody_cases f _ _ cb _ heq2 with
                    ⟨m, hr⟩ | ⟨out, err, hsp, hr⟩
                  · exact Or.inr (Or.inr (Or.inr (Or.inr (Or.inr (Or.inl
                      ⟨m, hr⟩)))))
                  · exact Or.inr (Or.inr (Or.inr (Or.inr (Or.inr (Or.inr (Or.inr
                      (Or.inr ⟨bytes, out, hsb, ⟨_, err, hsp⟩, hr⟩)))))))
                · injection h with h
                  exact Or.inr (Or.inr (Or.inr (Or.inr (Or.inr (Or.inr (Or.inl
                    ⟨bytes, _, hsb, h.symm⟩))))))
                · rename_i m heq2
                  injection h with h
                  exact Or.inr (Or.inr (Or.inr (Or.inr (Or.inr (Or.inr (Or.inr
                    (Or.inl ⟨bytes, m, hsb, h.symm⟩)))))))
                · rename_i m heq2
                  injection h with h
                  exact Or.inr (Or.inr (Or.inr (Or.inr (Or.inr (Or.inr (Or.inr
                    (Or.inl ⟨bytes, m, hsb, h.symm⟩)))))))


/-! ### Classifier lemmas -/

lemma threatLevelPriority_inj (a b : ThreatLevel)
    (h : threatLevelPriority a = threatLevelPriority b) : a = b := by
  revert h
  cases a <;> cases b <;> decide

lemma assessLoop_fst (kws : List (String × Int)) :
    ∀ maxL cnt, threatLevelPriority (assessLoop kws maxL cnt).1
      = Nat.max (threatLevelPriority maxL) (maxMatchPriority kws) := by
  induction kws with
  | nil =>
      intro maxL cnt
      simp [assessLoop, maxMatchPriority, matchedOf]
  | cons p kws ih =>
      intro maxL cnt
      obtain ⟨k, c⟩ := p
      unfold assessLoop
      by_cases hc : 0 < c
      · rw [if_pos hc]
        cases hd : dictGet threatDefinitions k with
        | some info =>
            rw [ih]
            have hm : matchedOf ((k, c) :: kws) = (k, c) :: matchedOf kws := by
              simp [matchedOf, List.filter_cons, hc, hd]
            have he : entryPriority (k, c) = threatLevelPriority info.level := by
              simp [entryPriority, hd]
            have hmm : maxMatchPriority ((k, c) :: kws)
                = Nat.max (threatLevelPriority info.level) (maxMatchPriority kws) := by
              unfold maxMatchPriority
              rw [hm, List.foldr_cons, he]
            rw [hmm]
            split_ifs with hgt <;> simp only [Nat.max_def] <;> split_ifs <;> omega
        | none =>
            rw [ih]
            have hm : matchedOf ((k, c) :: kws) = matchedOf kws := by
              simp [matchedOf, List.filter_cons, hc, hd]
            unfold maxMatchPriority
            rw [hm]
      · rw [if_neg hc]
        rw [ih]
        have hm : matchedOf ((k, c) :: kws) = matchedOf kws := by
          simp [matchedOf, List.filter_cons, hc]
        unfold maxMatchPriority
        rw [hm]

lemma assessLoop_snd (kws : List (String × Int)) :
    ∀ maxL cnt, (assessLoop kws maxL cnt).2 = cnt + (matchedOf kws).length := by
  induction kws with
  | nil => intro maxL cnt; simp [assessLoop, matchedOf]
  | cons p kws ih =>
      intro maxL cnt
      obtain ⟨k, c⟩ := p
      unfold assessLoop
      by_cases hc : 0 < c
      · rw [if_pos hc]
        cases hd : dictGet threatDefinitions k with
        | some info =>
            rw [ih]
            have hm : matchedOf ((k, c) :: kws) = (k, c) :: matchedOf kws := by
              simp [matchedOf, List.filter_cons, hc, hd]
            rw [hm, List.length_cons]
            omega
        | none =>
            rw [ih]
            have hm : matchedOf ((k, c) :: kws) = matchedOf kws := by
              simp [matchedOf, List.filter_cons, hc, hd]
            rw [hm]
      · rw [if_neg hc]
        rw [ih]
        have hm : matchedOf ((k, c) :: kws) = matchedOf kws := by
          simp [matchedOf, List.filter_cons, hc]
        rw [hm]

lemma foldr_entryPriority_perm {l l' : List (String × Int)} (h : List.Perm l l') :
    l.foldr (fun p m => Nat.max (entryPriority p) m) 0
      = l'.foldr (fun p m => Nat.max (entryPriority p) m) 0 := by
  induction h with
  | nil => rfl
  | cons x _ ih => simp only [List.foldr_cons, ih]
  | swap x y l => simp only [List.foldr_cons]; exact Nat.max_left_comm _ _ _
  | trans _ _ ih1 ih2 => exact ih1.trans ih2

lemma assessLevelCount_perm {kws kws' : List (String × Int)}
    (h : List.Perm kws kws') : assessLevelCount kws = assessLevelCount kws' := by
  have hperm : List.Perm (matchedOf kws) (matchedOf kws') := h.filter _
  have h1 : (assessLevelCount kws).1 = (assessLevelCount kws').1 := by
    apply threatLevelPriority_inj
    rw [assessLevelCount, assessLevelCount, assessLoop_fst, assessLoop_fst,
      maxMatchPriority, maxMatchPriority, foldr_entryPriority_perm hperm]
  have h2 : (assessLevelCount kws).2 = (assessLevelCount kws').2 := by
    rw [assessLevelCount, assessLevelCount, assessLoop_snd, assessLoop_snd,
      hperm.length_eq]
  exact Prod.ext h1 h2

lemma assessLoop_filter_nonzero (kws : List (String × Int)) :
    ∀ maxL cnt, assessLoop (kws.filter (fun p => decide (p.2 ≠ 0))) maxL cnt
      = assessLoop kws maxL cnt := by
  induction kws with
  | nil => intro maxL cnt; rfl
  | cons p kws ih =>
      intro maxL cnt
      obtain ⟨k, c⟩ := p
      by_cases hc : c ≠ 0
      · rw [List.filter_cons_of_pos (by simpa using hc)]
        show assessLoop ((k, c) :: List.filter (fun p => decide (p.2 ≠ 0)) kws)
            maxL cnt = assessLoop ((k, c) :: kws) maxL cnt
        unfold assessLoop
        by_cases hpos : 0 < c
        · rw [if_pos hpos, if_pos hpos]
          cases hd : dictGet threatDefinitions k with
          | none => simp only [hd]; exact ih _ _
          | some info => simp only [hd]; exact ih _ _
        · rw [if_neg hpos, if_neg hpos]
          exact ih _ _
      · rw [List.filter_cons_of_neg (by simpa using hc)]
        have hc0 : c = 0 := by omega
        subst hc0
        have hstep : assessLoop ((k, (0 : Int)) :: kws) maxL cnt
            = assessLoop kws maxL cnt := by
          conv_lhs => rw [assessLoop]
          rw [if_neg (by omega)]
        rw [hstep]
        exact ih _ _



/-! ### Further helper lemmas -/
lemma pyRound2_nonneg (q : ℚ) (h : 0 ≤ q) : 0 ≤ pyRound2 q := by
  unfold pyRound2
  have h1 : (0 : ℤ) ≤ round (q * 100) := by
    rw [round_eq]
    exact Int.floor_nonneg.mpr (by linarith)
  have h2 : (0 : ℚ) ≤ ((round (q * 100) : ℤ) : ℚ) := by exact_mod_cast h1
  positivity

lemma mbOf_nonneg (bytes : Nat) : 0 ≤ mbOf bytes := by
  unfold mbOf
  positivity

lemma sizeStep_ok_of_cb (f : FileEnv) (t : Option Nat) (cb : CB)
    (hcb : ∀ s, invokeCB cb s = Except.ok ()) :
    ∃ v, sizeStep f t cb = Except.ok v := by
  unfold sizeStep
  cases hs : f.statSize with
  | error m => exact ⟨_, rfl⟩
  | ok bytes =>
      dsimp only
      by_cases hmax : mbOf bytes > (MAX_FILE_SIZE_MB : ℚ)
      · rw [if_pos hmax]
        exact ⟨_, rfl⟩
      · rw [if_neg hmax]
        simp only [hcb, ite_self]
        exact ⟨_, rfl⟩

lemma mainBody_ok_or_timeout (f : FileEnv) (mb : ℚ) (tmo : Nat) (cb : CB)
    (hcb : ∀ s, invokeCB cb s = Except.ok ()) :
    (∃ r, mainBody f mb tmo cb = Except.ok r)
    ∨ mainBody f mb tmo cb = Except.error PyErr.timeoutExpired := by
  unfold mainBody runPdfidScan
  cases hsp : f.spawn tmo with
  | timeout => exact Or.inr rfl
  | raised m =>
      dsimp only
      rw [if_pos (by norm_num : (1 : Int) ≠ 0)]
      exact Or.inl ⟨_, rfl⟩
  | completed rc out err =>
      dsimp only
      by_cases hrc : rc ≠ 0
      · rw [if_pos hrc]
        exact Or.inl ⟨_, rfl⟩
      · rw [if_neg hrc]
        rw [hcb]
        exact Or.inl ⟨_, rfl⟩

lemma scanPdf_failed_safe (f : FileEnv) (t : Option Nat) (cb : CB)
    (r : ScanResult) (h : scanPdf f t cb = Except.ok r)
    (hs : r.success = false) : r.threat_level = ThreatLevel.SAFE := by
  rcases scanPdf_cases f t cb r h with
    h | h | ⟨m, h⟩ | ⟨b, _, h⟩ | h | ⟨m, h⟩ | ⟨b, tmo, _, h⟩ | ⟨b, m, _, h⟩ |
    ⟨b, out, _, _, h⟩
  all_goals subst h
  all_goals first
    | rfl
    | (exfalso; simp [successResult] at hs)

lemma foldl_lastVal (k : String) (l : List (String × Int)) : ∀ a : Option Int,
    l.foldl (fun acc p => if p.1 = k then some p.2 else acc) a
      = match (l.filter (fun p => decide (p.1 = k))).getLast? with
        | some p => some p.2
        | none => a := by
  induction l with
  | nil => intro a; rfl
  | cons p l ih =>
      intro a
      rw [List.foldl_cons, ih]
      by_cases hk : p.1 = k
      · rw [List.filter_cons_of_pos (by simpa using hk)]
        cases hfl : l.filter (fun p => decide (p.1 = k)) with
        | nil => simp [hfl, hk]
        | cons q tl =>
            rw [List.getLast?_cons_cons]
            cases hgl : (q :: tl).getLast? with
            | none =>
                exfalso
                exact List.cons_ne_nil _ _ (List.getLast?_eq_none_iff.mp hgl)
            | some w => rfl
      · rw [List.filter_cons_of_neg (by simpa using hk)]
        cases hgl : (l.filter (fun p => decide (p.1 = k))).getLast? with
        | none => simp [hgl, hk]
        | some w => simp [hgl]

lemma listStarts_append (l r : List Char) : listStarts l (l ++ r) = true := by
  induction l with
  | nil => rfl
  | cons a as ih => simp [listStarts, ih]

lemma strHasSub_append (s t : String) : strHasSub s (s ++ t) = true := by
  show listHasSub s.data (s ++ t).data = true
  have hdata : (s ++ t).data = s.data ++ t.data := rfl
  rw [hdata]
  cases hs : s.data with
  | nil =>
      cases ht : t.data with
      | nil => rfl
      | cons c cs => simp [listHasSub, listStarts]
  | cons a as =>
      simp only [listHasSub, Bool.or_eq_true]
      left
      simpa using listStarts_append (a :: as) t.data



/-! ### Claim theorems -/
/-- C1: `_assess_threats` returns as aggregate level the maximum severity
(by `_threat_level_priority`) over the keywords with positive count that
appear in the Threat Rule Table, SAFE when none match, and the value of the
classifier loop is invariant under permutation of the keyword mapping's
iteration order. -/
theorem assess_threats_is_commutative_max (kws : List (String × Int)) :
    threatLevelPriority (assessLevelCount kws).1 = maxMatchPriority kws
    ∧ (matchedOf kws = [] → (assessLevelCount kws).1 = ThreatLevel.SAFE)
    ∧ ∀ kws' : List (String × Int), List.Perm kws kws' →
        assessLevelCount kws = assessLevelCount kws' := by
  refine ⟨?_, ?_, fun kws' h => assessLevelCount_perm h⟩
  · rw [assessLevelCount, assessLoop_fst]
    simp [threatLevelPriority]
  · intro hm
    apply threatLevelPriority_inj
    rw [assessLevelCount, assessLoop_fst]
    unfold maxMatchPriority
    rw [hm]
    rfl

/-- Witness for C1 at a concrete permuted pair of keyword mappings. -/
theorem assess_threats_is_commutative_max_witness :
    assessLevelCount [("/Encrypt", 1), ("/JS", 1)]
      = assessLevelCount [("/JS", 1), ("/Encrypt", 1)] :=
  (assess_threats_is_commutative_max [("/Encrypt", 1), ("/JS", 1)]).2.2
    [("/JS", 1), ("/Encrypt", 1)] (List.Perm.swap _ _ _)

/-- C2: every `ScanResult` with `success = false` produced by `scan_pdf` or
by `scan_multiple_pdfs` has `threat_level = SAFE`. -/
theorem failed_results_are_safe :
    (∀ (f : FileEnv) (t : Option Nat) (cb : CB) (r : ScanResult),
        scanPdf f t cb = Except.ok r → r.success = false →
        r.threat_level = ThreatLevel.SAFE)
    ∧ (∀ (files : List FileEnv) (cb : CB) (order : List (Fin files.length))
        (r : ScanResult), r ∈ scanMultiplePdfs files cb order →
        r.success = false → r.threat_level = ThreatLevel.SAFE) := by
  refine ⟨scanPdf_failed_safe, ?_⟩
  intro files cb order r hmem hs
  unfold scanMultiplePdfs at hmem
  rcases List.mem_map.mp hmem with ⟨i, hi, hr⟩
  subst hr
  unfold futureOutcome at hs ⊢
  cases hsw : scanWithProgress files.length i.val (files.get i) cb with
  | error e => rfl
  | ok r' =>
      rw [hsw] at hs
      dsimp only at hs ⊢
      unfold scanWithProgress at hsw
      cases hv : invokeCB cb
          ("Scanning " ++ toString (i.val + 1) ++ "/" ++
            toString files.length ++ ": " ++ (files.get i).name) with
      | error e => rw [hv] at hsw; exact Except.noConfusion hsw
      | ok u => rw [hv] at hsw; exact scanPdf_failed_safe _ _ _ _ hsw hs

/-- Witness for C2 at a concrete failed scan (missing file). -/
theorem failed_results_are_safe_witness :
    (notFoundResult envMissing).threat_level = ThreatLevel.SAFE :=
  failed_results_are_safe.1 envMissing none none (notFoundResult envMissing)
    rfl rfl

/-- C4: with a completion order that is a permutation of all indices,
`scan_multiple_pdfs` returns exactly one result per input file (as a
permutation of the per-file outcomes, each of which depends only on its own
file), and a unit whose scan raises yields the error result naming that
file while every unit's outcome still appears in the batch output. -/
theorem batch_complete_and_isolated (files : List FileEnv) (cb : CB)
    (order : List (Fin files.length))
    (hperm : List.Perm order (List.finRange files.length)) :
    (scanMultiplePdfs files cb order).length = files.length
    ∧ List.Perm (scanMultiplePdfs files cb order)
        ((List.finRange files.length).map
          (fun i => futureOutcome files.length i.val (files.get i) cb))
    ∧ (∀ i : Fin files.length,
        futureOutcome files.length i.val (files.get i) cb
          ∈ scanMultiplePdfs files cb order)
    ∧ (∀ (i : Fin files.length) (e : PyErr),
        scanWithProgress files.length i.val (files.get i) cb
          = Except.error e →
        futureOutcome files.length i.val (files.get i) cb =
          { file_path := (files.get i).pathStr, success := false,
            threat_level := ThreatLevel.SAFE, summary := "Scan failed",
            details := [], recommendations := [],
            error_message := some ("Failed to scan " ++ (files.get i).name ++
              ": " ++ strOfErr e), scan_time := 0 }) := by
  refine ⟨?_, hperm.map _, ?_, ?_⟩
  · unfold scanMultiplePdfs
    rw [List.length_map, hperm.length_eq, List.length_finRange]
  · intro i
    unfold scanMultiplePdfs
    exact List.mem_map_of_mem _ (hperm.mem_iff.mpr (List.mem_finRange i))
  · intro i e hsw
    unfold futureOutcome
    rw [hsw]

/-- Witness for C4 on a concrete two-file batch completed out of order. -/
theorem batch_complete_and_isolated_witness :
    (scanMultiplePdfs batchFiles none batchOrder).length = 2 :=
  (batch_complete_and_isolated batchFiles none batchOrder (by decide)).1

/-- C7: the derived timeout is a monotonic step function of the size with
steps 30/60/180/300 at 10/100/500 MB, and it is used exactly when the
caller supplies no explicit timeout. -/
theorem timeout_monotonic_step :
    (∀ a b : ℚ, a < b → calculateTimeout a ≤ calculateTimeout b)
    ∧ (∀ s : ℚ, s ≤ 10 → calculateTimeout s = 30)
    ∧ (∀ s : ℚ, 10 < s → s ≤ 100 → calculateTimeout s = 60)
    ∧ (∀ s : ℚ, 100 < s → s ≤ 500 → calculateTimeout s = 180)
    ∧ (∀ s : ℚ, 500 < s → calculateTimeout s = 300)
    ∧ (∀ (t : Nat) (mb : ℚ), effectiveTimeout (some t) mb = t)
    ∧ (∀ mb : ℚ, effectiveTimeout none mb = calculateTimeout mb) := by
  refine ⟨?_, ?_, ?_, ?_, ?_, fun t mb => rfl, fun mb => rfl⟩
  · intro a b hab
    unfold calculateTimeout
    split_ifs <;> first | omega | linarith
  · intro s h
    unfold calculateTimeout
    rw [if_pos h]
  · intro s h1 h2
    unfold calculateTimeout
    rw [if_neg (by linarith), if_pos h2]
  · intro s h1 h2
    unfold calculateTimeout
    rw [if_neg (by linarith), if_neg (by linarith), if_pos h2]
  · intro s h
    unfold calculateTimeout
    rw [if_neg (by linarith), if_neg (by linarith), if_neg (by linarith)]

/-- Witness for C7 at concrete sizes 5 MB and 50 MB. -/
theorem timeout_monotonic_step_witness :
    calculateTimeout 5 ≤ calculateTimeout 50 ∧ calculateTimeout 50 = 60 :=
  ⟨timeout_monotonic_step.1 5 50 (by norm_num),
   timeout_monotonic_step.2.2.1 50 (by norm_num) (by norm_num)⟩


/-- C3 counterexample: a progress callback that raises makes `scan_pdf`
propagate the exception (the call at "Validating file..." is outside every
`try`), so the claim that `scan_pdf` never propagates for any progress
callback is false. -/
theorem scan_pdf_raising_callback_propagates :
    scanPdf envSmallJs none raisingCallback
      = Except.error (PyErr.exc "boom") := rfl

/-- C3 as amended: for every environment and timeout, provided the progress
callback never raises, `scan_pdf` returns a `ScanResult` — every internal
fault (stat `OSError`, spawn failure, tool timeout, non-zero exit) is caught
and converted to a terminal result. -/
theorem scan_pdf_total_without_raising_callback (f : FileEnv)
    (t : Option Nat) (cb : CB)
    (hcb : ∀ s, invokeCB cb s = Except.ok ()) :
    ∃ r, scanPdf f t cb = Except.ok r := by
  unfold scanPdf
  rw [hcb]
  dsimp only
  cases hfe : f.fsExists with
  | false => exact ⟨_, rfl⟩
  | true =>
      rw [if_neg (by decide : ¬((!true) = true))]
      by_cases hsuf : pyLower f.suffix ≠ ".pdf"
      · rw [if_pos hsuf]
        exact ⟨_, rfl⟩
      · rw [if_neg hsuf]
        obtain ⟨v, hv⟩ := sizeStep_ok_of_cb f t cb hcb
        rw [hv]
        cases v with
        | inl r => exact ⟨r, rfl⟩
        | inr p =>
            obtain ⟨mb, tmo⟩ := p
            dsimp only
            cases hpd : f.pdfidAvailable with
            | false => exact ⟨_, rfl⟩
            | true =>
                rw [if_neg (by decide : ¬((!true) = true))]
                rw [hcb]
                dsimp only
                rcases mainBody_ok_or_timeout f mb tmo cb hcb with ⟨r, hr⟩ | hto
                · rw [hr]
                  exact ⟨r, rfl⟩
                · rw [hto]
                  exact ⟨_, rfl⟩

/-- Witness for the amended C3 with the trivial (absent) callback. -/
theorem scan_pdf_total_without_raising_callback_witness :
    (scanPdf envMissing none none).isOk = true := by
  obtain ⟨r, hr⟩ :=
    scan_pdf_total_without_raising_callback envMissing none none
      (fun s => rfl)
  rw [hr]
  rfl

/-! ### Concrete evaluation lemmas and the remaining claim theorems -/

lemma scanPdf_success_eval (f : FileEnv) (bytes : Nat) (out err : String)
    (hfe : f.fsExists = true) (hsuf : pyLower f.suffix = ".pdf")
    (hstat : f.statSize = Except.ok bytes)
    (hmax : ¬ mbOf bytes > (MAX_FILE_SIZE_MB : ℚ))
    (hpd : f.pdfidAvailable = true)
    (hsp : f.spawn (effectiveTimeout none (mbOf bytes))
        = SpawnOutcome.completed 0 out err) :
    scanPdf f none none = Except.ok (successResult f (mbOf bytes) out) := by
  have hcb : ∀ s, invokeCB (none : CB) s = Except.ok () := fun s => rfl
  have hss : sizeStep f none none
      = Except.ok (Sum.inr (mbOf bytes, effectiveTimeout none (mbOf bytes))) := by
    unfold sizeStep
    rw [hstat]
    dsimp only
    rw [if_neg hmax]
    simp only [hcb, ite_self]
  have hmb : mainBody f (mbOf bytes) (effectiveTimeout none (mbOf bytes)) none
      = Except.ok (successResult f (mbOf bytes) out) := by
    unfold mainBody runPdfidScan
    rw [hsp]
    dsimp only
    rw [if_neg (by simp : ¬((0 : Int) ≠ 0))]
    rw [hcb]
  unfold scanPdf
  rw [hcb]
  dsimp only
  rw [hfe]
  rw [if_neg (by decide : ¬((!true) = true))]
  rw [if_neg (show ¬pyLower f.suffix ≠ ".pdf" from fun h => h hsuf)]
  rw [hss]
  dsimp only
  rw [hpd]
  rw [if_neg (by decide : ¬((!true) = true))]
  rw [hcb]
  dsimp only
  rw [hmb]

lemma mb_neg : mbOf 1048576 = 1 := by norm_num [mbOf]

lemma mb_big : mbOf 629145600 = 600 := by norm_num [mbOf]

lemma round2_one : pyRound2 1 = 1 := by
  unfold pyRound2
  rw [show ((1 : ℚ) * 100) = ((100 : ℤ) : ℚ) by norm_num, round_intCast]
  norm_num

lemma round2_six_hundred : pyRound2 600 = 600 := by
  unfold pyRound2
  rw [show ((600 : ℚ) * 100) = ((60000 : ℤ) : ℚ) by norm_num, round_intCast]
  norm_num
lemma negOut_eval : scanPdf envNegativeCount none none
    = Except.ok (successResult envNegativeCount (mbOf 1048576)
        "PDFiD 0.2.7 /docs/neg.pdf\n PDF Header: %PDF-1.7\n /JS -3") := by
  apply scanPdf_success_eval envNegativeCount 1048576 _ ""
  · rfl
  · rfl
  · rfl
  · rw [mb_neg]; norm_num [MAX_FILE_SIZE_MB]
  · rfl
  · rfl

lemma negOut_details : (successResult envNegativeCount (mbOf 1048576)
      "PDFiD 0.2.7 /docs/neg.pdf\n PDF Header: %PDF-1.7\n /JS -3").details
    = [("/JS", -3), ("file_size_mb", 1)] := by
  rw [mb_neg]
  simp only [successResult]
  rw [round2_one]
  rw [if_neg (by norm_num [WARNING_FILE_SIZE_MB] : ¬((1 : ℚ) > (WARNING_FILE_SIZE_MB : ℚ)))]
  decide
lemma cleanOut_eval : scanPdf envCleanCounts none none
    = Except.ok (successResult envCleanCounts (mbOf 1048576)
        "PDFiD 0.2.7 /docs/clean.pdf\n PDF Header: %PDF-1.7\n /JS 2") := by
  apply scanPdf_success_eval envCleanCounts 1048576 _ ""
  · rfl
  · rfl
  · rfl
  · rw [mb_neg]; norm_num [MAX_FILE_SIZE_MB]
  · rfl
  · rfl

lemma cleanOut_details : (successResult envCleanCounts (mbOf 1048576)
      "PDFiD 0.2.7 /docs/clean.pdf\n PDF Header: %PDF-1.7\n /JS 2").details
    = [("/JS", 2), ("file_size_mb", 1)] := by
  rw [mb_neg]
  simp only [successResult]
  rw [round2_one]
  rw [if_neg (by norm_num [WARNING_FILE_SIZE_MB] :
    ¬((1 : ℚ) > (WARNING_FILE_SIZE_MB : ℚ)))]
  decide

lemma bigOut_eval : scanPdf envVeryLarge none none
    = Except.ok (successResult envVeryLarge (mbOf 629145600)
        "PDFiD 0.2.7 /docs/big.pdf\n PDF Header: %PDF-1.7\n /JS 0") := by
  apply scanPdf_success_eval envVeryLarge 629145600 _ ""
  · rfl
  · rfl
  · rfl
  · rw [mb_big]; norm_num [MAX_FILE_SIZE_MB]
  · rfl
  · rfl

lemma bigOut_details : (successResult envVeryLarge (mbOf 629145600)
      "PDFiD 0.2.7 /docs/big.pdf\n PDF Header: %PDF-1.7\n /JS 0").details
    = [("/JS", 0), ("file_size_mb", 600), ("large_file", 1)] := by
  rw [mb_big]
  simp only [successResult]
  rw [round2_six_hundred]
  rw [if_pos (by norm_num [WARNING_FILE_SIZE_MB] :
    ((600 : ℚ) > (WARNING_FILE_SIZE_MB : ℚ)))]
  decide
/-- C8: the code bug.  A successful scan of a 600 MB file (over the 500 MB
large-file threshold, as its `large_file` detail flag shows) still gets only
the plain SAFE baseline recommendations — no size-tier message is appended,
because `scan_pdf` computes recommendations from the parsed keywords before
merging `file_size_mb` into them.  The last conjunct shows the synthesizer
would have appended the size-tier messages had the size been visible. -/
theorem size_tier_recommendations_never_applied :
    scanPdf envVeryLarge none none
      = Except.ok (successResult envVeryLarge (mbOf 629145600)
          "PDFiD 0.2.7 /docs/big.pdf\n PDF Header: %PDF-1.7\n /JS 0")
    ∧ (successResult envVeryLarge (mbOf 629145600)
        "PDFiD 0.2.7 /docs/big.pdf\n PDF Header: %PDF-1.7\n /JS 0").success
        = true
    ∧ (successResult envVeryLarge (mbOf 629145600)
        "PDFiD 0.2.7 /docs/big.pdf\n PDF Header: %PDF-1.7\n /JS 0").details
        = [("/JS", 0), ("file_size_mb", 600), ("large_file", 1)]
    ∧ (successResult envVeryLarge (mbOf 629145600)
        "PDFiD 0.2.7 /docs/big.pdf\n PDF Header: %PDF-1.7\n /JS 0").recommendations
        = ["âœ… No obvious threats detected",
           "File appears clean and safe to open"]
    ∧ mbOf 629145600 > (LARGE_FILE_SIZE_MB : ℚ)
    ∧ generateRecommendations ThreatLevel.SAFE 0 [("/JS", 0), ("file_size_mb", 600)]
        = ["âœ… No obvious threats detected",
           "File appears clean and safe to open",
           "ðŸ“Š Very large file (600.0MB) - ensure sufficient system resources",
           "Large PDFs may take time to open and may consume significant memory"] := by
  refine ⟨bigOut_eval, ?_, bigOut_details, ?_, ?_, ?_⟩
  · simp only [successResult]
  · simp only [successResult]
    decide
  · rw [mb_big]; norm_num [LARGE_FILE_SIZE_MB]
  · decide
/-- C5 counterexample: the parser accepts negative integer literals, so tool
output `/JS -3` puts a negative count into the `details` of a successful
scan, refuting "details never contains a negative count". -/
theorem details_negative_count_counterexample :
    resultDetails (scanPdf envNegativeCount none none)
      = [("/JS", -3), ("file_size_mb", 1)]
    ∧ ((-3 : ℚ) < 0) := by
  constructor
  · rw [negOut_eval]
    unfold resultDetails
    exact negOut_details
  · norm_num

/-- C5 as amended: when every entry parsed from the tool's stdout is
non-negative, the `details` of every result of `scan_pdf` contains no
negative count; and a keyword with count 0 is never a finding — dropping
all zero-count entries changes neither the aggregate level nor the
matched-indicator count of the classifier. -/
theorem details_nonneg_and_zero_not_a_finding :
    (∀ (f : FileEnv) (t : Option Nat) (cb : CB) (r : ScanResult),
        scanPdf f t cb = Except.ok r →
        (∀ (tmo : Nat) (p : String × Int),
            p ∈ parsePdfidOutput (spawnStdout (f.spawn tmo)) → 0 ≤ p.2) →
        ∀ q ∈ r.details, 0 ≤ q.2)
    ∧ (∀ kws : List (String × Int),
        assessLevelCount (kws.filter (fun p => decide (p.2 ≠ 0)))
          = assessLevelCount kws) := by
  constructor
  · intro f t cb r h hnn q hq
    rcases scanPdf_cases f t cb r h with
      h | h | ⟨m, h⟩ | ⟨b, hsb, h⟩ | h | ⟨m, h⟩ | ⟨b, tmo, hsb, h⟩ |
      ⟨b, m, hsb, h⟩ | ⟨b, out, hsb, ⟨tmo, err, hsp⟩, h⟩
    · subst h; exact absurd hq (by simp [notFoundResult])
    · subst h; exact absurd hq (by simp [invalidTypeResult])
    · subst h; exact absurd hq (by simp [accessErrorResult])
    · subst h
      simp only [tooLargeResult, List.mem_singleton] at hq
      rw [hq]
      exact pyRound2_nonneg _ (mbOf_nonneg b)
    · subst h; exact absurd hq (by simp [toolUnavailableResult])
    · subst h; exact absurd hq (by simp [scanFailedResult])
    · subst h
      simp only [timeoutResult, List.mem_singleton] at hq
      rw [hq]
      exact pyRound2_nonneg _ (mbOf_nonneg b)
    · subst h
      simp only [unexpectedResult, List.mem_singleton] at hq
      rw [hq]
      exact pyRound2_nonneg _ (mbOf_nonneg b)
    · subst h
      have hout : ∀ p : String × Int, p ∈ parsePdfidOutput out → 0 ≤ p.2 := by
        intro p hp
        apply hnn tmo p
        rw [hsp]
        exact hp
      simp only [successResult] at hq
      have hbase : ∀ q' : String × ℚ,
          q' ∈ (parsePdfidOutput out).map (fun p => (p.1, (p.2 : ℚ))) →
          0 ≤ q'.2 := by
        intro q' hq'
        rcases List.mem_map.mp hq' with ⟨p, hp, hpe⟩
        rw [← hpe]
        show (0 : ℚ) ≤ (p.2 : ℚ)
        exact_mod_cast hout p hp
      have hd1 : ∀ q' : String × ℚ,
          q' ∈ dictInsert
            ((parsePdfidOutput out).map (fun p => (p.1, (p.2 : ℚ))))
            "file_size_mb" (pyRound2 (mbOf b)) → 0 ≤ q'.2 := by
        intro q' hq'
        rcases mem_dictInsert hq' with h2 | h2
        · rw [h2]; exact pyRound2_nonneg _ (mbOf_nonneg b)
        · exact hbase q' h2
      by_cases hw : mbOf b > (WARNING_FILE_SIZE_MB : ℚ)
      · rw [if_pos hw] at hq
        rcases mem_dictInsert hq with h2 | h2
        · rw [h2]; norm_num
        · exact hd1 q h2
      · rw [if_neg hw] at hq
        exact hd1 q hq
  · intro kws
    unfold assessLevelCount
    exact assessLoop_filter_nonzero kws _ _

/-- Witness for the amended C5 on a concrete clean scan whose output parses
to the single non-negative entry `/JS 2`. -/
theorem details_nonneg_and_zero_not_a_finding_witness :
    (0 : ℚ) ≤ (("/JS", (2 : ℚ)) : String × ℚ).2 := by
  refine details_nonneg_and_zero_not_a_finding.1 envCleanCounts none none
    _ cleanOut_eval ?_ ("/JS", (2 : ℚ)) ?_
  · intro tmo p hp
    have he : parsePdfidOutput (spawnStdout (envCleanCounts.spawn tmo))
        = [("/JS", 2)] := rfl
    rw [he] at hp
    have h2 := List.mem_singleton.mp hp
    rw [h2]
    decide
  · rw [cleanOut_details]
    decide
/-- C6 counterexample: on an output of a single line `/JS 1` the parser
does not skip the first 2 lines — it records the entry, whereas
unconditionally dropping 2 lines would leave nothing. -/
theorem parser_header_skip_counterexample :
    parsePdfidOutput "/JS 1" = [("/JS", 1)]
    ∧ dictOfPairs (((pySplitlines "/JS 1").drop 2).filterMap lineEntry) = []
    ∧ ([("/JS", (1 : Int))] : List (String × Int)) ≠ [] := by
  refine ⟨by decide, by decide, by decide⟩

/-- C6 as amended: the parser drops the first 2 lines only when the output
has more than 2 lines (otherwise it processes all lines); each processed
line contributes an entry exactly when, after stripping, it is non-blank
and its one whitespace split yields two tokens whose second parses as an
integer (`lineEntry`), malformed lines contributing nothing; and the split
yields at most two tokens. -/
theorem parser_skip_and_leniency :
    (∀ out, parsePdfidOutput out
      = dictOfPairs ((dataLinesOf out).filterMap lineEntry))
    ∧ (∀ line, (pySplitNone1 line).length ≤ 2) := by
  refine ⟨parse_eq_filterMap, ?_⟩
  intro line
  unfold pySplitNone1
  cases h : line.data.dropWhile isPyWS with
  | nil => simp [h]
  | cons c cs =>
      simp only [h]
      split <;> simp

/-- C9 counterexample: for aggregate levels HIGH and CRITICAL no message of
the synthesizer's output contains the matched-indicator count — in fact the
output does not depend on the count at all. -/
theorem count_interpolation_counterexample :
    ((generateRecommendations ThreatLevel.HIGH 2 []).any
        (fun m => strHasSub (toString (2 : Nat)) m)) = false
    ∧ ((generateRecommendations ThreatLevel.CRITICAL 2 []).any
        (fun m => strHasSub (toString (2 : Nat)) m)) = false
    ∧ generateRecommendations ThreatLevel.HIGH 2 []
        = generateRecommendations ThreatLevel.HIGH 3 []
    ∧ generateRecommendations ThreatLevel.CRITICAL 2 []
        = generateRecommendations ThreatLevel.CRITICAL 3 [] := by
  refine ⟨by decide, by decide, by decide, by decide⟩

/-- C9 as amended: for aggregate level MEDIUM the synthesizer's output
contains one message into which the matched-indicator count is
interpolated. -/
theorem medium_interpolates_count (n : Nat) (kws : List (String × Int)) :
    ∃ msg ∈ generateRecommendations ThreatLevel.MEDIUM n kws,
      strHasSub (toString n) msg = true := by
  refine ⟨toString n ++ " concerning feature(s) found", ?_,
    strHasSub_append _ _⟩
  unfold generateRecommendations
  dsimp only
  split_ifs <;> simp

/-- C10: when several well-formed lines share a keyword, the parsed mapping
records the count of the last such line (later occurrences overwrite
earlier ones); checked concretely on an output carrying `/JS 1` then
`/JS 5`. -/
theorem parser_last_duplicate_wins :
    (∀ out k : String, dictGet (parsePdfidOutput out) k
      = (((dataLinesOf out).filterMap lineEntry).filter
          (fun p => decide (p.1 = k))).getLast?.map (fun p => p.2))
    ∧ dictGet (parsePdfidOutput "h1\nh2\n/JS 1\n/JS 5") "/JS" = some 5 := by
  constructor
  · intro out k
    rw [parse_eq_filterMap]
    unfold dictOfPairs
    rw [dictGet_foldl_insert, foldl_lastVal]
    cases hgl : (((dataLinesOf out).filterMap lineEntry).filter
        (fun p => decide (p.1 = k))).getLast? with
    | none => rfl
    | some w => rfl
  · decide

end PdfScanner
